import Mathlib

/-!
Verification of the n8n-mcp-proxy bridge (src/app.py) — a shallow embedding of
its data model, upstream client, tool handlers, message dispatcher and HTTP
endpoints, together with theorems settling the specification claims.
-/

namespace N8nMcpProxy

/-- JSON-compatible values, the payload type flowing through the bridge
(Python dicts/lists/strings/numbers/bools/None as produced by json.loads). -/
inductive Json where
  | null
  | bool (b : Bool)
  | num (n : Int)
  | str (s : String)
  | arr (xs : List Json)
  | obj (fields : List (String × Json))
deriving Inhabited

/-- Association-list lookup, modelling Python dict key lookup (dicts have
unique keys, so first match is the match). -/
def alistLookup : List (String × Json) → String → Option Json
  | [], _ => none
  | (k, v) :: rest, key => if k = key then some v else alistLookup rest key

/-- Field lookup on a JSON object; none when the value is not an object or
lacks the key (a spec-side accessor used in theorem statements). -/
def Json.lookup : Json → String → Option Json
  | .obj fs, k => alistLookup fs k
  | _, _ => none

/-- Python truthiness (`if not x`) on JSON-compatible values: None, False,
0, empty string, empty list and empty dict are falsy. -/
def Json.truthy : Json → Bool
  | .null => false
  | .bool b => b
  | .num n => n != 0
  | .str s => s != ""
  | .arr xs => !xs.isEmpty
  | .obj fs => !fs.isEmpty

/-- Python str() of a JSON value as used by the f-strings of the source
(exact for the scalar cases, which are the only ones the claims exercise;
container cases are an approximation of the Python repr). -/
def Json.pyStr : Json → String
  | .null => "None"
  | .bool true => "True"
  | .bool false => "False"
  | .num n => toString n
  | .str s => s
  | .arr _ => "[...]"
  | .obj _ => "\x7b...\x7d"

/-- Python exceptions that the source can raise and catch: fastapi/starlette
HTTPException(status, detail), json.JSONDecodeError from json.loads /
response.json(), and AttributeError from calling .get or .startswith on a
value of the wrong type. -/
inductive PyError where
  | httpExc (status : Nat) (detail : String)
  | jsonDecode
  | attrError

/-- String form str(e) of the exceptions above. The starlette
HTTPException.__str__ is the f-string status-colon-detail; the other two
messages are fixed representatives (no claim depends on their exact text,
only that they are not the raw upstream body). -/
def PyError.toStr : PyError → String
  | .httpExc s d => toString s ++ ": " ++ d
  | .jsonDecode => "Expecting value: line 1 column 1 (char 0)"
  | .attrError => "AttributeError"

/-- Module-level configuration read from the environment at startup:
N8N_URL (already rstripped of trailing slash), N8N_API_KEY, MCP_BEARER. -/
structure Config where
  n8nUrl : String
  n8nApiKey : String
  mcpBearer : String

/-- The module-level HEADERS dict attached to every management API call. -/
def HEADERS (cfg : Config) : List (String × String) :=
  [("X-N8N-API-KEY", cfg.n8nApiKey), ("Content-Type", "application/json")]

inductive Method where
  | get
  | post
  | patch
  | delete

/-- One outbound HTTP request issued by the bridge to the upstream n8n API:
method, full URL, headers of the aiohttp session, and the JSON body before
serialization (none for GET/DELETE). -/
structure HttpRequest where
  method : Method
  url : String
  headers : List (String × String)
  body : Option Json

/-- One upstream HTTP response: status code, body text, and the result of
attempting to parse the body as JSON (none when parsing would fail —
this field is the model of json.loads(text) / await response.json()). -/
structure HttpResponse where
  status : Nat
  text : String
  jsonBody : Option Json

/-- The upstream n8n server, modelled as a total response function: every
request receives some response (connection failures are out of scope of the
claims under verification). -/
def Upstream := HttpRequest → HttpResponse

/-- Does the character list `needle` occur at the start of `hay`? -/
def charListPre : List Char → List Char → Bool
  | [], _ => true
  | a :: as, b :: bs => a == b && charListPre as bs
  | _ :: _, [] => false

/-- Does the character list `needle` occur anywhere inside `hay`? -/
def charListSub (needle : List Char) : List Char → Bool
  | [] => needle.isEmpty
  | c :: rest => charListPre needle (c :: rest) || charListSub needle rest

/-- Substring test on strings (spec-side helper for payload-content
statements). -/
def strHas (hay needle : String) : Bool :=
  charListSub needle.toList hay.toList

/-- Python str.startswith, on the character sequence. -/
def pyStartsWith (s pre : String) : Bool :=
  charListPre pre.toList s.toList

/-- The first n characters of a string removed (Python slicing on the
character sequence). -/
def strDropChars (s : String) (n : Nat) : String :=
  String.mk (s.toList.drop n)

/-- The bearer check shared by the /sse middleware (bearer_auth) and the
/mcp endpoint: `auth.startswith("Bearer ") and auth.split(" ", 1)[1] ==
MCP_BEARER`. Under the startswith guard the first space of `auth` is the
one ending the "Bearer " prefix, so the part after the first space is the
string with its first 7 characters removed. -/
def bearer_auth_ok (cfg : Config) (auth : String) : Bool :=
  pyStartsWith auth "Bearer " && strDropChars auth 7 == cfg.mcpBearer

/-- Model of `return json.loads(text) if text else` the empty dict: an
empty body yields the empty dict, otherwise the parse result or a
JSONDecodeError. -/
def json_loads_or_empty (resp : HttpResponse) : Except PyError Json :=
  if resp.text = "" then .ok (.obj [])
  else
    match resp.jsonBody with
    | some j => .ok j
    | none => .error .jsonDecode

/-- Embeds _n8n_get: GET to N8N_URL ++ path with the management HEADERS; raises
HTTPException(status, text) when status >= 400, else parses the body.
Also returns the list of requests issued (always exactly one). -/
def n8n_get (cfg : Config) (upstream : Upstream) (path : String) :
    Except PyError Json × List HttpRequest :=
  let req : HttpRequest := ⟨.get, cfg.n8nUrl ++ path, HEADERS cfg, none⟩
  let resp := upstream req
  if 400 ≤ resp.status then (.error (.httpExc resp.status resp.text), [req])
  else (json_loads_or_empty resp, [req])

/-- Embeds _n8n_post: POST json.dumps(data) to N8N_URL ++ path with HEADERS;
raises on status >= 400, else parses the body. -/
def n8n_post (cfg : Config) (upstream : Upstream) (path : String) (data : Json) :
    Except PyError Json × List HttpRequest :=
  let req : HttpRequest := ⟨.post, cfg.n8nUrl ++ path, HEADERS cfg, some data⟩
  let resp := upstream req
  if 400 ≤ resp.status then (.error (.httpExc resp.status resp.text), [req])
  else (json_loads_or_empty resp, [req])

/-- Embeds _n8n_patch: PATCH json.dumps(data) to N8N_URL ++ path with HEADERS;
raises on status >= 400, else parses the body. -/
def n8n_patch (cfg : Config) (upstream : Upstream) (path : String) (data : Json) :
    Except PyError Json × List HttpRequest :=
  let req : HttpRequest := ⟨.patch, cfg.n8nUrl ++ path, HEADERS cfg, some data⟩
  let resp := upstream req
  if 400 ≤ resp.status then (.error (.httpExc resp.status resp.text), [req])
  else (json_loads_or_empty resp, [req])

/-- Embeds _n8n_delete: DELETE to N8N_URL ++ path with HEADERS; raises on status
>= 400, else returns the ok/status/body dict without parsing the text. -/
def n8n_delete (cfg : Config) (upstream : Upstream) (path : String) :
    Except PyError Json × List HttpRequest :=
  let req : HttpRequest := ⟨.delete, cfg.n8nUrl ++ path, HEADERS cfg, none⟩
  let resp := upstream req
  if 400 ≤ resp.status then (.error (.httpExc resp.status resp.text), [req])
  else (.ok (.obj [("ok", .bool true), ("status", .num resp.status),
                   ("body", .str resp.text)]), [req])

/-- The success dict each tool returns. -/
def mkOk (data : Json) : Json := .obj [("success", .bool true), ("data", data)]

/-- The failure dict the except-clause of each tool returns. -/
def mkErr (msg : String) : Json := .obj [("success", .bool false), ("error", .str msg)]

/-- MCPTools.list_workflows: GET /rest/workflows, catching any exception
into a success-false dict. -/
def list_workflows (cfg : Config) (upstream : Upstream) : Json × List HttpRequest :=
  match n8n_get cfg upstream "/rest/workflows" with
  | (.ok data, reqs) => (mkOk data, reqs)
  | (.error e, reqs) => (mkErr e.toStr, reqs)

/-- MCPTools.create_workflow: requires a truthy workflow argument, then
POST /rest/workflows, catching any exception into a success-false dict. -/
def create_workflow (cfg : Config) (upstream : Upstream) (workflow : Json) :
    Json × List HttpRequest :=
  if !workflow.truthy then (mkErr "workflow parameter is required", [])
  else
    match n8n_post cfg upstream "/rest/workflows" workflow with
    | (.ok data, reqs) => (mkOk data, reqs)
    | (.error e, reqs) => (mkErr e.toStr, reqs)

/-- MCPTools.set_active: requires a truthy workflow_id, then PATCH
the workflow resource with an active-field body, catching any exception. -/
def set_active (cfg : Config) (upstream : Upstream) (workflow_id : Json)
    (active : Json) : Json × List HttpRequest :=
  if !workflow_id.truthy then (mkErr "workflow_id is required", [])
  else
    match n8n_patch cfg upstream ("/rest/workflows/" ++ workflow_id.pyStr)
        (.obj [("active", active)]) with
    | (.ok data, reqs) => (mkOk data, reqs)
    | (.error e, reqs) => (mkErr e.toStr, reqs)

/-- MCPTools.delete_workflow: requires a truthy workflow_id, then DELETE
the workflow resource, catching any exception. -/
def delete_workflow (cfg : Config) (upstream : Upstream) (workflow_id : Json) :
    Json × List HttpRequest :=
  if !workflow_id.truthy then (mkErr "workflow_id is required", [])
  else
    match n8n_delete cfg upstream ("/rest/workflows/" ++ workflow_id.pyStr) with
    | (.ok data, reqs) => (mkOk data, reqs)
    | (.error e, reqs) => (mkErr e.toStr, reqs)

/-- MCPTools.run_webhook: rejects a falsy path or a path not starting with
a slash before any upstream call; a truthy non-string path raises
AttributeError at .startswith, caught by the except-clause. Otherwise POSTs
the payload (defaulting None to the empty dict) to N8N_URL ++ path on a
session WITHOUT the management HEADERS, and reports the upstream status and
body (parsed JSON, else raw text) with success true regardless of status. -/
def run_webhook (cfg : Config) (upstream : Upstream) (path : Json)
    (payload : Json) : Json × List HttpRequest :=
  if !path.truthy then (mkErr "path must start with /", [])
  else
    match path with
    | .str s =>
      if !pyStartsWith s "/" then (mkErr "path must start with /", [])
      else
        let pl := match payload with
          | .null => .obj []
          | p => p
        let req : HttpRequest := ⟨.post, cfg.n8nUrl ++ s, [], some pl⟩
        let resp := upstream req
        let body := match resp.jsonBody with
          | some j => j
          | none => .str resp.text
        (.obj [("success", .bool true), ("status", .num resp.status),
               ("body", body)], [req])
    | _ => (mkErr PyError.attrError.toStr, [])

/-- Python dict.get(k) on a value of unknown type: the value under the key
(None when absent) on a dict, AttributeError otherwise. -/
def pyGet (d : Json) (k : String) : Except PyError Json :=
  match d with
  | .obj fs => .ok ((alistLookup fs k).getD .null)
  | _ => .error .attrError

/-- Python dict.get(k, default) on a value of unknown type. -/
def pyGetD (d : Json) (k : String) (dflt : Json) : Except PyError Json :=
  match d with
  | .obj fs => .ok ((alistLookup fs k).getD dflt)
  | _ => .error .attrError

/-- The tools list of the initialize response in handle_mcp_message: all
five registered tools with their input schemas, verbatim from the source. -/
def toolSchemas : Json := .arr
  [ .obj [("name", .str "list_workflows"),
          ("description", .str "Liste tous les workflows n8n"),
          ("inputSchema", .obj [("type", .str "object"),
                                ("properties", .obj [])])],
    .obj [("name", .str "create_workflow"),
          ("description", .str "Crée un nouveau workflow n8n"),
          ("inputSchema", .obj
            [("type", .str "object"),
             ("properties", .obj
               [("workflow", .obj [("type", .str "object"),
                                   ("description", .str "Le workflow JSON n8n")])]),
             ("required", .arr [.str "workflow"])])],
    .obj [("name", .str "set_active"),
          ("description", .str "Active ou désactive un workflow"),
          ("inputSchema", .obj
            [("type", .str "object"),
             ("properties", .obj
               [("workflow_id", .obj [("type", .str "string"),
                                      ("description", .str "ID du workflow")]),
                ("active", .obj [("type", .str "boolean"),
                                 ("description", .str "État actif"),
                                 ("default", .bool true)])]),
             ("required", .arr [.str "workflow_id"])])],
    .obj [("name", .str "delete_workflow"),
          ("description", .str "Supprime un workflow"),
          ("inputSchema", .obj
            [("type", .str "object"),
             ("properties", .obj
               [("workflow_id", .obj [("type", .str "string"),
                                      ("description", .str "ID du workflow")])]),
             ("required", .arr [.str "workflow_id"])])],
    .obj [("name", .str "run_webhook"),
          ("description", .str "Déclenche un workflow via webhook"),
          ("inputSchema", .obj
            [("type", .str "object"),
             ("properties", .obj
               [("path", .obj [("type", .str "string"),
                               ("description", .str "Chemin webhook (commence par /)")]),
                ("payload", .obj [("type", .str "object"),
                                  ("description", .str "Données à envoyer"),
                                  ("default", .obj [])])]),
             ("required", .arr [.str "path"])])] ]

/-- The full response of handle_mcp_message to an initialize message. -/
def initializedMsg : Json :=
  .obj [("type", .str "initialized"),
        ("capabilities", .obj [("tools", toolSchemas)])]

/-- The tool-dispatch arm of handle_mcp_message: the if/elif chain on
tool_name, passing the relevant entries of params to each tool (a .get on a
non-dict params raises AttributeError; list_workflows never touches params). -/
def dispatch_tool (cfg : Config) (upstream : Upstream) (toolName : Json)
    (params : Json) : Except PyError (Json × List HttpRequest) :=
  match toolName with
  | .str "list_workflows" => .ok (list_workflows cfg upstream)
  | .str "create_workflow" => do
    let w ← pyGet params "workflow"
    .ok (create_workflow cfg upstream w)
  | .str "set_active" => do
    let wid ← pyGet params "workflow_id"
    let act ← pyGetD params "active" (.bool true)
    .ok (set_active cfg upstream wid act)
  | .str "delete_workflow" => do
    let wid ← pyGet params "workflow_id"
    .ok (delete_workflow cfg upstream wid)
  | .str "run_webhook" => do
    let p ← pyGet params "path"
    let pl ← pyGet params "payload"
    .ok (run_webhook cfg upstream p pl)
  | other => .ok (.obj [("error", .str ("Unknown tool: " ++ other.pyStr))], [])

/-- The tool_result envelope returned for every dispatched tool call. -/
def mkToolResult (callId result : Json) : Json :=
  .obj [("type", .str "tool_result"), ("tool_call_id", callId),
        ("result", result)]

/-- handle_mcp_message: branches on message.get("type"); an initialize
message gets the static capability enumeration; a tool_call message is
dispatched (message.get("tool", empty) must be a dict or .get("name")
raises); any other type gets an unknown-message-type error dict. A non-dict
message raises AttributeError at message.get("type"). The request trace of
the dispatched tool is returned alongside. -/
def handle_mcp_message (cfg : Config) (upstream : Upstream) (message : Json) :
    Except PyError Json × List HttpRequest :=
  match message with
  | .obj m =>
    match (alistLookup m "type").getD .null with
    | .str "initialize" => (.ok initializedMsg, [])
    | .str "tool_call" =>
      (match (alistLookup m "tool").getD (.obj []) with
       | .obj t =>
         let toolName := (alistLookup t "name").getD .null
         let params := (alistLookup t "arguments").getD (.obj [])
         match dispatch_tool cfg upstream toolName params with
         | .ok (result, reqs) =>
           (.ok (mkToolResult ((alistLookup m "id").getD .null) result), reqs)
         | .error e => (.error e, [])
       | _ => (.error .attrError, []))
    | msgType =>
      (.ok (.obj [("type", .str "error"),
                  ("error", .str ("Unknown message type: " ++ msgType.pyStr))]), [])
  | _ => (.error .attrError, [])

/-- Body of an HTTP reply produced by this service: a JSONResponse payload
or a PlainTextResponse string. -/
inductive ReplyBody where
  | jsonOf (j : Json)
  | textOf (s : String)

/-- An HTTP reply of this service to its own caller. -/
structure HttpReply where
  status : Nat
  body : ReplyBody

/-- mcp_endpoint (POST /mcp): checks the bearer header (absent modelled by
none, then treated as the empty string); rejects with 401 before any tool
logic; a request body that fails JSON parsing (body = none) or an exception
escaping handle_mcp_message yields a 500 JSONResponse with str(e); otherwise
the handler response is returned with status 200. -/
def mcp_endpoint (cfg : Config) (upstream : Upstream) (auth : Option String)
    (body : Option Json) : HttpReply × List HttpRequest :=
  if !bearer_auth_ok cfg (auth.getD "") then
    (⟨401, .jsonOf (.obj [("error", .str "Unauthorized")])⟩, [])
  else
    match body with
    | none => (⟨500, .jsonOf (.obj [("error", .str PyError.jsonDecode.toStr)])⟩, [])
    | some b =>
      match handle_mcp_message cfg upstream b with
      | (.ok resp, reqs) => (⟨200, .jsonOf resp⟩, reqs)
      | (.error e, reqs) => (⟨500, .jsonOf (.obj [("error", .str e.toStr)])⟩, reqs)

/-- One server-sent event of the /sse stream: a data event carrying a JSON
payload, or the keep-alive comment line. -/
inductive SseEvent where
  | dataEvent (j : Json)
  | keepAlive

/-- The first message yielded by the /sse event generator. -/
def sseInitMsg : Json :=
  .obj [("type", .str "initialize"), ("version", .str "1.0.0"),
        ("capabilities", .obj [("tools", .bool true)])]

/-- The /sse event generator as a function from event index to event:
index 0 is the initialize data event; event n+1 is the n-th keep-alive,
emitted iff the caller was still connected at every disconnect check
0..n (none once the loop has broken). -/
def sseEvents (disconnected : Nat → Bool) : Nat → Option SseEvent
  | 0 => some (.dataEvent sseInitMsg)
  | n + 1 =>
    if (List.range (n + 1)).all (fun j => !disconnected j) then some .keepAlive
    else none

/-- GET /sse as seen through the bearer_auth middleware: a failed bearer
check returns the 401 PlainTextResponse and no stream ever starts;
otherwise the streaming response is the event generator above. -/
def sse_endpoint (cfg : Config) (auth : Option String)
    (disconnected : Nat → Bool) : Except (Nat × String) (Nat → Option SseEvent) :=
  if !bearer_auth_ok cfg (auth.getD "") then .error (401, "Unauthorized")
  else .ok (sseEvents disconnected)

/-- A concrete configuration used by witnesses. -/
def cfg0 : Config := ⟨"http://n8n.local", "key0", "secret0"⟩

/-- A concrete upstream that answers every request with an empty 200. -/
def ok200 : Upstream := fun _ => ⟨200, "", none⟩

theorem n8n_get_trace (cfg : Config) (u : Upstream) (path : String) :
    (n8n_get cfg u path).2 = [⟨.get, cfg.n8nUrl ++ path, HEADERS cfg, none⟩] := by
  unfold n8n_get
  by_cases h : 400 ≤ (u ⟨.get, cfg.n8nUrl ++ path, HEADERS cfg, none⟩).status <;> simp [h]

theorem n8n_post_trace (cfg : Config) (u : Upstream) (path : String) (data : Json) :
    (n8n_post cfg u path data).2 = [⟨.post, cfg.n8nUrl ++ path, HEADERS cfg, some data⟩] := by
  unfold n8n_post
  by_cases h : 400 ≤ (u ⟨.post, cfg.n8nUrl ++ path, HEADERS cfg, some data⟩).status <;> simp [h]

theorem n8n_patch_trace (cfg : Config) (u : Upstream) (path : String) (data : Json) :
    (n8n_patch cfg u path data).2 = [⟨.patch, cfg.n8nUrl ++ path, HEADERS cfg, some data⟩] := by
  unfold n8n_patch
  by_cases h : 400 ≤ (u ⟨.patch, cfg.n8nUrl ++ path, HEADERS cfg, some data⟩).status <;> simp [h]

theorem n8n_delete_trace (cfg : Config) (u : Upstream) (path : String) :
    (n8n_delete cfg u path).2 = [⟨.delete, cfg.n8nUrl ++ path, HEADERS cfg, none⟩] := by
  unfold n8n_delete
  by_cases h : 400 ≤ (u ⟨.delete, cfg.n8nUrl ++ path, HEADERS cfg, none⟩).status <;> simp [h]

theorem list_workflows_trace (cfg : Config) (u : Upstream) :
    (list_workflows cfg u).2 = (n8n_get cfg u "/rest/workflows").2 := by
  unfold list_workflows
  rcases hx : n8n_get cfg u "/rest/workflows" with ⟨r, reqs⟩
  cases r <;> simp

theorem create_workflow_trace (cfg : Config) (u : Upstream) (w : Json)
    (hw : w.truthy = true) :
    (create_workflow cfg u w).2 = (n8n_post cfg u "/rest/workflows" w).2 := by
  unfold create_workflow
  rw [hw]
  rcases hx : n8n_post cfg u "/rest/workflows" w with ⟨r, reqs⟩
  cases r <;> simp

theorem set_active_trace (cfg : Config) (u : Upstream) (wid act : Json)
    (hw : wid.truthy = true) :
    (set_active cfg u wid act).2 =
      (n8n_patch cfg u ("/rest/workflows/" ++ wid.pyStr) (.obj [("active", act)])).2 := by
  unfold set_active
  rw [hw]
  rcases hx : n8n_patch cfg u ("/rest/workflows/" ++ wid.pyStr) (.obj [("active", act)])
    with ⟨r, reqs⟩
  cases r <;> simp

theorem delete_workflow_trace (cfg : Config) (u : Upstream) (wid : Json)
    (hw : wid.truthy = true) :
    (delete_workflow cfg u wid).2 =
      (n8n_delete cfg u ("/rest/workflows/" ++ wid.pyStr)).2 := by
  unfold delete_workflow
  rw [hw]
  rcases hx : n8n_delete cfg u ("/rest/workflows/" ++ wid.pyStr) with ⟨r, reqs⟩
  cases r <;> simp

theorem dispatch_tool_total (cfg : Config) (u : Upstream) (toolName : Json)
    (a : List (String × Json)) :
    ∃ r reqs, dispatch_tool cfg u toolName (.obj a) = .ok (r, reqs) := by
  unfold dispatch_tool
  split <;> exact ⟨_, _, rfl⟩

/-- Claim C1, counterexample: at the concrete input of a run_webhook
invocation with path "/hook" against an upstream that answers status 500
with body "Internal Server Error", the returned ToolResult is a success
outcome (success is the boolean true, not an error outcome), refuting the
claim that every tool invocation maps an upstream status of 400 or more to
an error outcome — the webhook tool does include the status code but keeps
success true. -/
theorem c1_webhook_upstream_error_counterexample :
    (run_webhook ⟨"http://n8n.local", "key0", "secret0"⟩
        (fun _ => ⟨500, "Internal Server Error", none⟩) (.str "/hook") .null).1 =
      .obj [("success", .bool true), ("status", .num 500),
            ("body", .str "Internal Server Error")] ∧
    Json.bool true ≠ Json.bool false := ⟨rfl, by simp⟩

/-- Claim C1, amended: for the management tools (list_workflows,
create_workflow, set_active, delete_workflow) an upstream response with
status at least 400 yields a ToolResult with success false whose error
payload carries the original status code (as the status-colon-text of the
raised HTTPException); run_webhook instead reports success true while still
carrying the original upstream status code in its status field. -/
theorem c1_upstream_error_status (cfg : Config) (resp : HttpResponse)
    (h : 400 ≤ resp.status) (w wid act : Json) (hw : w.truthy = true)
    (hwid : wid.truthy = true) :
    (list_workflows cfg (fun _ => resp)).1 =
      mkErr (toString resp.status ++ ": " ++ resp.text) ∧
    (create_workflow cfg (fun _ => resp) w).1 =
      mkErr (toString resp.status ++ ": " ++ resp.text) ∧
    (set_active cfg (fun _ => resp) wid act).1 =
      mkErr (toString resp.status ++ ": " ++ resp.text) ∧
    (delete_workflow cfg (fun _ => resp) wid).1 =
      mkErr (toString resp.status ++ ": " ++ resp.text) ∧
    (run_webhook cfg (fun _ => resp) (.str "/hook") .null).1.lookup "success" =
      some (.bool true) ∧
    (run_webhook cfg (fun _ => resp) (.str "/hook") .null).1.lookup "status" =
      some (.num resp.status) := by
  refine ⟨?_, ?_, ?_, ?_, rfl, rfl⟩
  · unfold list_workflows n8n_get
    simp [h, PyError.toStr]
  · unfold create_workflow n8n_post
    simp [hw, h, PyError.toStr]
  · unfold set_active n8n_patch
    simp [hwid, h, PyError.toStr]
  · unfold delete_workflow n8n_delete
    simp [hwid, h, PyError.toStr]

/-- Claim C1, witness: the amended theorem applied at a concrete 500
response. -/
theorem c1_upstream_error_status_witness :
    (list_workflows cfg0 (fun _ => ⟨500, "oops", none⟩)).1 =
      mkErr (toString (500 : Nat) ++ ": " ++ "oops") ∧
    (create_workflow cfg0 (fun _ => ⟨500, "oops", none⟩) (.obj [("nodes", .arr [])])).1 =
      mkErr (toString (500 : Nat) ++ ": " ++ "oops") ∧
    (set_active cfg0 (fun _ => ⟨500, "oops", none⟩) (.str "42") (.bool true)).1 =
      mkErr (toString (500 : Nat) ++ ": " ++ "oops") ∧
    (delete_workflow cfg0 (fun _ => ⟨500, "oops", none⟩) (.str "42")).1 =
      mkErr (toString (500 : Nat) ++ ": " ++ "oops") ∧
    (run_webhook cfg0 (fun _ => ⟨500, "oops", none⟩) (.str "/hook") .null).1.lookup "success" =
      some (.bool true) ∧
    (run_webhook cfg0 (fun _ => ⟨500, "oops", none⟩) (.str "/hook") .null).1.lookup "status" =
      some (.num 500) :=
  c1_upstream_error_status cfg0 ⟨500, "oops", none⟩ (by decide)
    (.obj [("nodes", .arr [])]) (.str "42") (.bool true) (by decide) (by decide)

/-- Claim C2, counterexample: POST /mcp with a valid bearer credential and
the literal body of the claim (a tool field and an arguments field but no
type field) returns HTTP 200 whose payload is the unknown-message-type
error dict — not a validation error, and the error text does not name
"workflow" anywhere, refuting the claim as stated. -/
theorem c2_literal_body_counterexample :
    mcp_endpoint ⟨"http://n8n.local", "key0", "secret0"⟩ (fun _ => ⟨200, "", none⟩)
        (some "Bearer secret0")
        (some (.obj [("tool", .str "create_workflow"), ("arguments", .obj [])])) =
      (⟨200, .jsonOf (.obj [("type", .str "error"),
                            ("error", .str "Unknown message type: None")])⟩, []) ∧
    strHas "Unknown message type: None" "workflow" = false := ⟨rfl, by decide⟩

/-- Claim C2, amended: POST /mcp with a valid bearer credential and the
message format the handler understands (type tool_call, tool name
create_workflow, empty arguments) is a transport-level success (HTTP 200,
not 4xx/5xx) whose payload is the validation error naming workflow as the
missing required parameter, with no upstream call made; the literal body of
the claim, lacking a type field, instead yields an unknown-message-type
payload (still HTTP 200). -/
theorem c2_tool_call_validation_error (cfg : Config) (upstream : Upstream)
    (auth : Option String) (h : bearer_auth_ok cfg (auth.getD "") = true) :
    mcp_endpoint cfg upstream auth
        (some (.obj [("type", .str "tool_call"),
                     ("tool", .obj [("name", .str "create_workflow"),
                                    ("arguments", .obj [])])])) =
      (⟨200, .jsonOf (mkToolResult .null (mkErr "workflow parameter is required"))⟩, []) := by
  unfold mcp_endpoint
  rw [h]
  rfl

/-- Claim C2, witness: the amended theorem applied at the concrete
configuration with its matching bearer header. -/
theorem c2_tool_call_validation_error_witness :
    mcp_endpoint cfg0 ok200 (some "Bearer secret0")
        (some (.obj [("type", .str "tool_call"),
                     ("tool", .obj [("name", .str "create_workflow"),
                                    ("arguments", .obj [])])])) =
      (⟨200, .jsonOf (mkToolResult .null (mkErr "workflow parameter is required"))⟩, []) :=
  c2_tool_call_validation_error cfg0 ok200 (some "Bearer secret0") (by decide)

/-- Claim C3, counterexample: the first event of every accepted stream is
the data event carrying sseInitMsg, whose capabilities field is the object
with tools mapped to the boolean true — not the enumeration of the five
registered tools with their input schemas (toolSchemas), refuting the claim
that the first event enumerates them. -/
theorem c3_first_event_counterexample :
    sseEvents (fun _ => false) 0 = some (.dataEvent sseInitMsg) ∧
    sseInitMsg.lookup "capabilities" = some (.obj [("tools", .bool true)]) ∧
    Json.bool true ≠ toolSchemas := by
  refine ⟨rfl, rfl, ?_⟩
  simp [toolSchemas]

/-- Claim C3, amended: for every accepted streaming connection the first
event emitted, before any result or heartbeat, is a capability
announcement, but it only advertises tools true; the enumeration of all
five registered tools together with their input schemas is produced by the
message handler in response to an initialize message, not by the first
stream event. -/
theorem c3_capability_event_scope (cfg : Config) (upstream : Upstream)
    (auth : Option String) (disconnected : Nat → Bool)
    (h : bearer_auth_ok cfg (auth.getD "") = true) :
    sse_endpoint cfg auth disconnected = .ok (sseEvents disconnected) ∧
    sseEvents disconnected 0 = some (.dataEvent sseInitMsg) ∧
    sseInitMsg.lookup "capabilities" = some (.obj [("tools", .bool true)]) ∧
    handle_mcp_message cfg upstream (.obj [("type", .str "initialize")]) =
      (.ok initializedMsg, []) ∧
    initializedMsg.lookup "capabilities" = some (.obj [("tools", toolSchemas)]) ∧
    (∃ l, toolSchemas = .arr l ∧
      l.map (fun tl => tl.lookup "name") =
        [some (.str "list_workflows"), some (.str "create_workflow"),
         some (.str "set_active"), some (.str "delete_workflow"),
         some (.str "run_webhook")]) := by
  refine ⟨?_, rfl, rfl, rfl, rfl, ?_⟩
  · unfold sse_endpoint
    rw [h]
    rfl
  · exact ⟨_, rfl, rfl⟩

/-- Claim C3, witness: the amended theorem applied at the concrete
configuration, a never-disconnecting caller and a valid bearer header. -/
theorem c3_capability_event_scope_witness :
    sse_endpoint cfg0 (some "Bearer secret0") (fun _ => false) =
      .ok (sseEvents (fun _ => false)) ∧
    sseEvents (fun _ => false) 0 = some (.dataEvent sseInitMsg) ∧
    sseInitMsg.lookup "capabilities" = some (.obj [("tools", .bool true)]) ∧
    handle_mcp_message cfg0 ok200 (.obj [("type", .str "initialize")]) =
      (.ok initializedMsg, []) ∧
    initializedMsg.lookup "capabilities" = some (.obj [("tools", toolSchemas)]) ∧
    (∃ l, toolSchemas = .arr l ∧
      l.map (fun tl => tl.lookup "name") =
        [some (.str "list_workflows"), some (.str "create_workflow"),
         some (.str "set_active"), some (.str "delete_workflow"),
         some (.str "run_webhook")]) :=
  c3_capability_event_scope cfg0 ok200 (some "Bearer secret0") (fun _ => false) (by decide)

/-- Claim C4: every tool invocation dispatched through the message handler
(a tool_call message whose tool field is an object and whose arguments, if
present, are an object) returns a ToolResult envelope — an ok tool_result
dict with a result field, whatever the upstream does (tool handlers catch
every exception into a structured success-false dict) — and the /mcp
request handling completes with HTTP 200, never torn down by a tool-level
error. -/
theorem c4_tool_call_always_tool_result (cfg : Config) (upstream : Upstream)
    (m t : List (String × Json)) (auth : Option String)
    (htype : alistLookup m "type" = some (.str "tool_call"))
    (htool : alistLookup m "tool" = some (.obj t))
    (hargs : alistLookup t "arguments" = none ∨
             ∃ a, alistLookup t "arguments" = some (.obj a))
    (hauth : bearer_auth_ok cfg (auth.getD "") = true) :
    ∃ result reqs,
      handle_mcp_message cfg upstream (.obj m) =
        (.ok (mkToolResult ((alistLookup m "id").getD .null) result), reqs) ∧
      mcp_endpoint cfg upstream auth (some (.obj m)) =
        (⟨200, .jsonOf (mkToolResult ((alistLookup m "id").getD .null) result)⟩, reqs) := by
  obtain ⟨a, ha⟩ : ∃ a, (alistLookup t "arguments").getD (.obj []) = .obj a := by
    rcases hargs with h1 | ⟨a, h2⟩
    · exact ⟨[], by rw [h1]; rfl⟩
    · exact ⟨a, by rw [h2]; rfl⟩
  obtain ⟨r, reqs, hd⟩ := dispatch_tool_total cfg upstream
    ((alistLookup t "name").getD .null) a
  have hh : handle_mcp_message cfg upstream (.obj m) =
      (.ok (mkToolResult ((alistLookup m "id").getD .null) r), reqs) := by
    unfold handle_mcp_message
    dsimp only
    rw [htype]
    dsimp only [Option.getD_some]
    rw [htool]
    dsimp only [Option.getD_some]
    rw [ha, hd]
    rfl
  refine ⟨r, reqs, hh, ?_⟩
  unfold mcp_endpoint
  rw [hauth]
  simp only [Bool.not_true, Bool.false_eq_true, if_false]
  rw [hh]

/-- Claim C4, witness: the theorem applied to a concrete list_workflows
tool_call (no arguments key) with a valid bearer header. -/
theorem c4_tool_call_always_tool_result_witness :
    ∃ result reqs,
      handle_mcp_message cfg0 ok200
          (.obj [("type", .str "tool_call"), ("id", .str "1"),
                 ("tool", .obj [("name", .str "list_workflows")])]) =
        (.ok (mkToolResult (.str "1") result), reqs) ∧
      mcp_endpoint cfg0 ok200 (some "Bearer secret0")
          (some (.obj [("type", .str "tool_call"), ("id", .str "1"),
                       ("tool", .obj [("name", .str "list_workflows")])])) =
        (⟨200, .jsonOf (mkToolResult (.str "1") result)⟩, reqs) :=
  c4_tool_call_always_tool_result cfg0 ok200
    [("type", .str "tool_call"), ("id", .str "1"),
     ("tool", .obj [("name", .str "list_workflows")])]
    [("name", .str "list_workflows")] (some "Bearer secret0")
    rfl rfl (Or.inl rfl) (by decide)

/-- Claim C5, counterexample: a management call (list_workflows) against an
upstream answering 200 with the non-JSON body "plain text, not json" does
not return the raw text as a fallback payload — the call fails with a
structured error whose message is the JSON-decode text, which does not
contain the raw body, refuting the claim for the management request
methods. -/
theorem c5_management_parse_counterexample :
    (list_workflows ⟨"http://n8n.local", "key0", "secret0"⟩
        (fun _ => ⟨200, "plain text, not json", none⟩)).1 =
      mkErr "Expecting value: line 1 column 1 (char 0)" ∧
    strHas "Expecting value: line 1 column 1 (char 0)" "plain text, not json" = false :=
  ⟨rfl, by decide⟩

/-- Claim C5, amended: only run_webhook returns the raw response text as a
fallback payload when the body fails JSON parsing (and the delete helper
never parses, always reporting the raw text); the management GET, POST and
PATCH calls raise a JSON-decode exception instead, which the tools report
as a structured success-false result carrying the decode message, not the
raw text. -/
theorem c5_parse_fallback_scope (cfg : Config) (resp : HttpResponse)
    (hs : resp.status < 400) (ht : resp.text ≠ "") (hj : resp.jsonBody = none)
    (w wid : Json) (hw : w.truthy = true) (hwid : wid.truthy = true) :
    (run_webhook cfg (fun _ => resp) (.str "/hook") .null).1 =
      .obj [("success", .bool true), ("status", .num resp.status),
            ("body", .str resp.text)] ∧
    (delete_workflow cfg (fun _ => resp) wid).1 =
      mkOk (.obj [("ok", .bool true), ("status", .num resp.status),
                  ("body", .str resp.text)]) ∧
    (list_workflows cfg (fun _ => resp)).1 = mkErr PyError.jsonDecode.toStr ∧
    (create_workflow cfg (fun _ => resp) w).1 = mkErr PyError.jsonDecode.toStr ∧
    (set_active cfg (fun _ => resp) wid (.bool true)).1 = mkErr PyError.jsonDecode.toStr := by
  have hns : ¬ 400 ≤ resp.status := Nat.not_le.mpr hs
  refine ⟨?_, ?_, ?_, ?_, ?_⟩
  · unfold run_webhook
    simp only [hj]
    rfl
  · unfold delete_workflow n8n_delete
    simp [hwid, hns]
  · unfold list_workflows n8n_get json_loads_or_empty
    simp [hns, ht, hj]
  · unfold create_workflow n8n_post json_loads_or_empty
    simp [hw, hns, ht, hj]
  · unfold set_active n8n_patch json_loads_or_empty
    simp [hwid, hns, ht, hj]

/-- Claim C5, witness: the amended theorem applied at a concrete 200
response with a non-JSON body. -/
theorem c5_parse_fallback_scope_witness :
    (run_webhook cfg0 (fun _ => ⟨200, "plain text", none⟩) (.str "/hook") .null).1 =
      .obj [("success", .bool true), ("status", .num 200),
            ("body", .str "plain text")] ∧
    (delete_workflow cfg0 (fun _ => ⟨200, "plain text", none⟩) (.str "42")).1 =
      mkOk (.obj [("ok", .bool true), ("status", .num 200),
                  ("body", .str "plain text")]) ∧
    (list_workflows cfg0 (fun _ => ⟨200, "plain text", none⟩)).1 =
      mkErr PyError.jsonDecode.toStr ∧
    (create_workflow cfg0 (fun _ => ⟨200, "plain text", none⟩) (.obj [("nodes", .arr [])])).1 =
      mkErr PyError.jsonDecode.toStr ∧
    (set_active cfg0 (fun _ => ⟨200, "plain text", none⟩) (.str "42") (.bool true)).1 =
      mkErr PyError.jsonDecode.toStr :=
  c5_parse_fallback_scope cfg0 ⟨200, "plain text", none⟩ (by decide) (by decide) rfl
    (.obj [("nodes", .arr [])]) (.str "42") (by decide) (by decide)

/-- Claim C6: whenever the Authorization header is absent (modelled by the
empty string the middleware substitutes) or fails the bearer check, GET /sse
returns 401 with body "Unauthorized" and no streaming begins, and POST /mcp
returns 401 with no upstream call and no tool logic run; the absent header
always fails the check. -/
theorem c6_unauthorized_rejected (cfg : Config) (upstream : Upstream)
    (auth : Option String) (body : Option Json) (disconnected : Nat → Bool)
    (h : bearer_auth_ok cfg (auth.getD "") = false) :
    sse_endpoint cfg auth disconnected = .error (401, "Unauthorized") ∧
    mcp_endpoint cfg upstream auth body =
      (⟨401, .jsonOf (.obj [("error", .str "Unauthorized")])⟩, []) ∧
    bearer_auth_ok cfg "" = false := by
  refine ⟨?_, ?_, rfl⟩
  · unfold sse_endpoint
    simp [h]
  · unfold mcp_endpoint
    simp [h]

/-- Claim C6, witness: the theorem applied at the concrete configuration
and an absent Authorization header. -/
theorem c6_unauthorized_rejected_witness :
    sse_endpoint cfg0 none (fun _ => false) = .error (401, "Unauthorized") ∧
    mcp_endpoint cfg0 ok200 none (some (.obj [])) =
      (⟨401, .jsonOf (.obj [("error", .str "Unauthorized")])⟩, []) ∧
    bearer_auth_ok cfg0 "" = false :=
  c6_unauthorized_rejected cfg0 ok200 none (some (.obj [])) (fun _ => false) (by decide)

/-- Claim C7: every run_webhook invocation whose path argument is a string
not starting with a slash returns the validation error dict and issues no
upstream HTTP request. -/
theorem c7_webhook_path_validation (cfg : Config) (upstream : Upstream)
    (s : String) (payload : Json) (h : pyStartsWith s "/" = false) :
    run_webhook cfg upstream (.str s) payload = (mkErr "path must start with /", []) := by
  unfold run_webhook
  by_cases hs : s = ""
  · subst hs
    rfl
  · have ht : (Json.str s).truthy = true := by simp [Json.truthy, hs]
    simp [ht, h]

/-- Claim C7, witness: the theorem applied at the concrete path "hook". -/
theorem c7_webhook_path_validation_witness :
    pyStartsWith "hook" "/" = false ∧
    run_webhook cfg0 ok200 (.str "hook") .null = (mkErr "path must start with /", []) :=
  ⟨by decide, c7_webhook_path_validation cfg0 ok200 "hook" .null (by decide)⟩

/-- Claim C8: a valid set_active tool_call whose arguments omit the active
key issues exactly one upstream request, a PATCH to the workflow resource
whose body is the object mapping active to true (the default holds). -/
theorem c8_set_active_default_patch_body (cfg : Config) (upstream : Upstream)
    (wid : String) (idv : Json) (h : wid ≠ "") :
    ∃ res, handle_mcp_message cfg upstream
        (.obj [("type", .str "tool_call"), ("id", idv),
               ("tool", .obj [("name", .str "set_active"),
                              ("arguments", .obj [("workflow_id", .str wid)])])]) =
      (.ok (mkToolResult idv res),
       [⟨.patch, cfg.n8nUrl ++ ("/rest/workflows/" ++ wid), HEADERS cfg,
         some (.obj [("active", .bool true)])⟩]) := by
  have ht : (Json.str wid).truthy = true := by simp [Json.truthy, h]
  have htr := set_active_trace cfg upstream (.str wid) (.bool true) ht
  rw [n8n_patch_trace] at htr
  refine ⟨(set_active cfg upstream (.str wid) (.bool true)).1, ?_⟩
  have hdef : handle_mcp_message cfg upstream
      (.obj [("type", .str "tool_call"), ("id", idv),
             ("tool", .obj [("name", .str "set_active"),
                            ("arguments", .obj [("workflow_id", .str wid)])])]) =
      (.ok (mkToolResult idv (set_active cfg upstream (.str wid) (.bool true)).1),
       (set_active cfg upstream (.str wid) (.bool true)).2) := rfl
  rw [hdef, htr]
  rfl

/-- Claim C8, witness: the theorem applied at the concrete workflow id 42. -/
theorem c8_set_active_default_patch_body_witness :
    ∃ res, handle_mcp_message cfg0 ok200
        (.obj [("type", .str "tool_call"), ("id", .str "1"),
               ("tool", .obj [("name", .str "set_active"),
                              ("arguments", .obj [("workflow_id", .str "42")])])]) =
      (.ok (mkToolResult (.str "1") res),
       [⟨.patch, cfg0.n8nUrl ++ ("/rest/workflows/" ++ "42"), HEADERS cfg0,
         some (.obj [("active", .bool true)])⟩]) :=
  c8_set_active_default_patch_body cfg0 ok200 "42" (.str "1") (by decide)

/-- Claim C9: every request issued by the management tools carries the
upstream API-key header (the X-N8N-API-KEY entry of HEADERS), and every
request issued by run_webhook carries no X-N8N-API-KEY header at all. -/
theorem c9_api_key_header_policy (cfg : Config) (upstream : Upstream) :
    (∀ req ∈ (list_workflows cfg upstream).2,
        ("X-N8N-API-KEY", cfg.n8nApiKey) ∈ req.headers) ∧
    (∀ w, ∀ req ∈ (create_workflow cfg upstream w).2,
        ("X-N8N-API-KEY", cfg.n8nApiKey) ∈ req.headers) ∧
    (∀ wid act, ∀ req ∈ (set_active cfg upstream wid act).2,
        ("X-N8N-API-KEY", cfg.n8nApiKey) ∈ req.headers) ∧
    (∀ wid, ∀ req ∈ (delete_workflow cfg upstream wid).2,
        ("X-N8N-API-KEY", cfg.n8nApiKey) ∈ req.headers) ∧
    (∀ p pl, ∀ req ∈ (run_webhook cfg upstream p pl).2, ∀ v,
        ("X-N8N-API-KEY", v) ∉ req.headers) := by
  refine ⟨?_, ?_, ?_, ?_, ?_⟩
  · intro req hreq
    rw [list_workflows_trace, n8n_get_trace] at hreq
    simp at hreq
    subst hreq
    simp [HEADERS]
  · intro w req hreq
    by_cases hw : w.truthy = true
    · rw [create_workflow_trace cfg upstream w hw, n8n_post_trace] at hreq
      simp at hreq
      subst hreq
      simp [HEADERS]
    · unfold create_workflow at hreq
      rw [Bool.not_eq_true] at hw
      rw [hw] at hreq
      simp at hreq
  · intro wid act req hreq
    by_cases hw : wid.truthy = true
    · rw [set_active_trace cfg upstream wid act hw, n8n_patch_trace] at hreq
      simp at hreq
      subst hreq
      simp [HEADERS]
    · unfold set_active at hreq
      rw [Bool.not_eq_true] at hw
      rw [hw] at hreq
      simp at hreq
  · intro wid req hreq
    by_cases hw : wid.truthy = true
    · rw [delete_workflow_trace cfg upstream wid hw, n8n_delete_trace] at hreq
      simp at hreq
      subst hreq
      simp [HEADERS]
    · unfold delete_workflow at hreq
      rw [Bool.not_eq_true] at hw
      rw [hw] at hreq
      simp at hreq
  · intro p pl req hreq v
    unfold run_webhook at hreq
    by_cases hp : p.truthy = true
    · rw [hp] at hreq
      simp only [Bool.not_true] at hreq
      match p with
      | .str s =>
        by_cases hps : pyStartsWith s "/" = true
        · simp [hps] at hreq
          subst hreq
          simp
        · rw [Bool.not_eq_true] at hps
          simp [hps] at hreq
      | .null | .bool b | .num n | .arr xs | .obj fs => simp at hreq
    · rw [Bool.not_eq_true] at hp
      rw [hp] at hreq
      simp at hreq

/-- Claim C9, witness: the theorem applied at the concrete configuration,
extracting the API-key header of the one request list_workflows issues. -/
theorem c9_api_key_header_policy_witness :
    ("X-N8N-API-KEY", cfg0.n8nApiKey) ∈
      (HttpRequest.mk .get (cfg0.n8nUrl ++ "/rest/workflows") (HEADERS cfg0) none).headers :=
  (c9_api_key_header_policy cfg0 ok200).1
    ⟨.get, cfg0.n8nUrl ++ "/rest/workflows", HEADERS cfg0, none⟩
    (List.mem_singleton.mpr rfl)

/-- Claim C10: required-argument presence is decided by Python truthiness,
not key presence — a create_workflow call whose workflow argument is the
empty object, and set_active or delete_workflow calls whose workflow_id is
the empty string, return the required-parameter error and issue no upstream
request even though the required key is present in the argument mapping. -/
theorem c10_truthiness_required_args (cfg : Config) (upstream : Upstream) :
    handle_mcp_message cfg upstream
        (.obj [("type", .str "tool_call"),
               ("tool", .obj [("name", .str "create_workflow"),
                              ("arguments", .obj [("workflow", .obj [])])])]) =
      (.ok (mkToolResult .null (mkErr "workflow parameter is required")), []) ∧
    handle_mcp_message cfg upstream
        (.obj [("type", .str "tool_call"),
               ("tool", .obj [("name", .str "set_active"),
                              ("arguments", .obj [("workflow_id", .str ""),
                                                  ("active", .bool true)])])]) =
      (.ok (mkToolResult .null (mkErr "workflow_id is required")), []) ∧
    handle_mcp_message cfg upstream
        (.obj [("type", .str "tool_call"),
               ("tool", .obj [("name", .str "delete_workflow"),
                              ("arguments", .obj [("workflow_id", .str "")])])]) =
      (.ok (mkToolResult .null (mkErr "workflow_id is required")), []) :=
  ⟨rfl, rfl, rfl⟩

/-- Claim C10, witness: the theorem applied at the concrete configuration
and upstream. -/
theorem c10_truthiness_required_args_witness :
    handle_mcp_message cfg0 ok200
        (.obj [("type", .str "tool_call"),
               ("tool", .obj [("name", .str "create_workflow"),
                              ("arguments", .obj [("workflow", .obj [])])])]) =
      (.ok (mkToolResult .null (mkErr "workflow parameter is required")), []) ∧
    handle_mcp_message cfg0 ok200
        (.obj [("type", .str "tool_call"),
               ("tool", .obj [("name", .str "set_active"),
                              ("arguments", .obj [("workflow_id", .str ""),
                                                  ("active", .bool true)])])]) =
      (.ok (mkToolResult .null (mkErr "workflow_id is required")), []) ∧
    handle_mcp_message cfg0 ok200
        (.obj [("type", .str "tool_call"),
               ("tool", .obj [("name", .str "delete_workflow"),
                              ("arguments", .obj [("workflow_id", .str "")])])]) =
      (.ok (mkToolResult .null (mkErr "workflow_id is required")), []) :=
  c10_truthiness_required_args cfg0 ok200

end N8nMcpProxy
